import Mathlib

set_option maxHeartbeats 1000000

namespace Zino

/-- Dynamically-typed document value, embedding `serde_json::Value`.
JSON numbers are modelled as arbitrary-precision integers, which covers every
numeric literal appearing in the verified claims. -/
inductive JsonValue where
  | null
  | bool (b : Bool)
  | num (n : Int)
  | str (s : String)
  | arr (elems : List JsonValue)
  | obj (entries : List (String × JsonValue))

/-- Column metadata: the fields of `zino_core::model::Column` consumed by the two
dialect encoders (`name`, `type_name`, `default_value`, `index_type`).  The struct
itself lives in `model/column.rs`, which is not under `src/`; its shape is modelled
from the spec's Column data model (section 3). -/
structure Column where
  name : String
  type_name : String
  default_value : Option String
  index_type : Option String
  deriving DecidableEq

/-- A single-quote character as a one-character string. -/
def squote : String := String.singleton (Char.ofNat 39)

/-- Embeds Rust `str::contains(char)`. -/
def strContains (s : String) (c : Char) : Bool :=
  s.toList.any (fun x => x = c)

/-- Splitting loop for `splitChar`, accumulating the current piece reversed. -/
def splitCharAux (sep : Char) : List Char → List Char → List String
  | [], acc => [String.mk acc.reverse]
  | c :: rest, acc =>
    if c = sep then String.mk acc.reverse :: splitCharAux sep rest []
    else splitCharAux sep rest (c :: acc)

/-- Embeds Rust `str::split(char)` collected into a vector: the pieces between
occurrences of the separator, with empty pieces preserved. -/
def splitChar (s : String) (sep : Char) : List String :=
  splitCharAux sep s.toList []

/-- Embeds Rust `str::replace(char, &str)`: every occurrence of the character is
replaced by the given string. -/
def replaceChar (s : String) (c : Char) (r : String) : String :=
  String.join (s.toList.map (fun x => if x = c then r else String.singleton x))

/-- ASCII lowercasing of a string (the fragment of Unicode lowercasing exercised
by the float-literal keywords `inf`, `infinity` and `nan`). -/
def asciiLower (s : String) : String :=
  String.mk (s.toList.map (fun c =>
    if 65 ≤ c.toNat ∧ c.toNat ≤ 90 then Char.ofNat (c.toNat + 32) else c))

/-- Modelled from the spec: `Query::escape_string` (its definition in
`database/query.rs` is absent from `src/`) renders a string as a quoted SQL string
literal, doubling any embedded quote. -/
def escape_string (value : String) : String :=
  squote ++ replaceChar value (Char.ofNat 39) (squote ++ squote) ++ squote

/-- Numeric value of a digit list, most significant first. -/
def digitsVal (cs : List Char) : Nat :=
  cs.foldl (fun a c => a * 10 + (c.toNat - 48)) 0

/-- Recognizer for Rust `str::parse::<u64>()` success: an optional leading `+`,
one or more ASCII digits, and a value that fits in 64 bits. -/
def rust_u64_ok (s : String) : Bool :=
  let cs := s.toList
  let cs := match cs with
    | c :: rest => if c = '+' then rest else c :: rest
    | [] => []
  !cs.isEmpty && cs.all Char.isDigit && decide (digitsVal cs < 2 ^ 64)

/-- Recognizer for Rust `str::parse::<i64>()` success: an optional sign, one or
more ASCII digits, and a value within the 64-bit signed range. -/
def rust_i64_ok (s : String) : Bool :=
  let cs := s.toList
  match cs with
  | '-' :: rest => !rest.isEmpty && rest.all Char.isDigit && decide (digitsVal rest ≤ 2 ^ 63)
  | '+' :: rest => !rest.isEmpty && rest.all Char.isDigit && decide (digitsVal rest < 2 ^ 63)
  | rest => !rest.isEmpty && rest.all Char.isDigit && decide (digitsVal rest < 2 ^ 63)

/-- Strips one optional leading sign character. -/
def stripSign (cs : List Char) : List Char :=
  match cs with
  | c :: rest => if c = '+' ∨ c = '-' then rest else c :: rest
  | [] => []

/-- Recognizer for the exponent part of a Rust float literal: an optional sign
followed by one or more digits. -/
def floatExpOk (cs : List Char) : Bool :=
  let cs := stripSign cs
  !cs.isEmpty && cs.all Char.isDigit

/-- Recognizer for the mantissa part of a Rust float literal:
`Digits`, `Digits . Digits?` or `. Digits`. -/
def floatMantissaOk (cs : List Char) : Bool :=
  let intPart := cs.takeWhile (· ≠ '.')
  match cs.dropWhile (· ≠ '.') with
  | [] => !cs.isEmpty && cs.all Char.isDigit
  | _ :: frac =>
    intPart.all Char.isDigit && frac.all Char.isDigit &&
      (!intPart.isEmpty || !frac.isEmpty)

/-- Recognizer for Rust `str::parse::<f64>()` success, following the documented
grammar: an optional sign, then `inf`, `infinity` or `nan` (case-insensitive) or a
mantissa with an optional `e`/`E` exponent. -/
def rust_f64_ok (s : String) : Bool :=
  let cs := stripSign s.toList
  let low := asciiLower (String.mk cs)
  if low = "inf" ∨ low = "infinity" ∨ low = "nan" then true
  else
    let isE : Char → Bool := fun c => c = 'e' ∨ c = 'E'
    let mant := cs.takeWhile (fun c => !isE c)
    match cs.dropWhile (fun c => !isE c) with
    | [] => floatMantissaOk mant
    | _ :: ex => floatMantissaOk mant && floatExpOk ex

/-- Unsigned-integer semantic type tags. -/
def uintTypeNames : List String := ["u64", "u32", "u16", "u8", "usize"]

/-- Signed-integer semantic type tags. -/
def intTypeNames : List String := ["i64", "i32", "i16", "i8", "isize"]

/-- Floating-point semantic type tags. -/
def floatTypeNames : List String := ["f64", "f32"]

/-- String-like semantic type tags (escaped verbatim by `format_value`). -/
def stringTypeNames : List String := ["String", "Uuid", "Option<Uuid>"]

/-- The numeric and date/time semantic type tags sharing a filter branch. -/
def numericTimeTypeNames : List String :=
  ["u64", "i64", "u32", "i32", "u16", "i16", "u8", "i8", "usize", "isize",
   "f64", "f32", "DateTime", "Date", "Time", "NaiveDateTime", "NaiveDate",
   "NaiveTime"]

/-- Embeds `Column::column_type` from `database/mysql.rs`. -/
def mysql_column_type (col : Column) : String :=
  let tn := col.type_name
  if tn = "bool" then "BOOLEAN"
  else if tn = "u64" ∨ tn = "usize" then "BIGINT UNSIGNED"
  else if tn = "i64" ∨ tn = "isize" then "BIGINT"
  else if tn = "u32" then "INT UNSIGNED"
  else if tn = "i32" then "INT"
  else if tn = "u16" then "SMALLINT UNSIGNED"
  else if tn = "i16" then "SMALLINT"
  else if tn = "u8" then "TINYINT UNSIGNED"
  else if tn = "i8" then "TINYINT"
  else if tn = "f64" then "DOUBLE"
  else if tn = "f32" then "FLOAT"
  else if tn = "String" then
    (if (col.default_value.orElse (fun _ => col.index_type)).isSome then "VARCHAR(255)"
     else "TEXT")
  else if tn = "DateTime" then "TIMESTAMP(6)"
  else if tn = "NaiveDateTime" then "DATETIME(6)"
  else if tn = "NaiveDate" ∨ tn = "Date" then "DATE"
  else if tn = "NaiveTime" ∨ tn = "Time" then "TIME"
  else if tn = "Uuid" ∨ tn = "Option<Uuid>" then "VARCHAR(36)"
  else if tn = "Vec<u8>" then "BLOB"
  else if tn = "Vec<String>" then "JSON"
  else if tn = "Vec<Uuid>" then "JSON"
  else if tn = "Map" then "JSON"
  else tn

/-- Embeds `Column::column_type` from `database/postgres.rs`. -/
def pg_column_type (col : Column) : String :=
  let tn := col.type_name
  if tn = "bool" then "BOOLEAN"
  else if tn ∈ ["u64", "i64", "usize", "isize"] then "BIGINT"
  else if tn = "u32" ∨ tn = "i32" then "INT"
  else if tn ∈ ["u16", "i16", "u8", "i8"] then "SMALLINT"
  else if tn = "f64" then "DOUBLE PRECISION"
  else if tn = "f32" then "REAL"
  else if tn = "String" then "TEXT"
  else if tn = "DateTime" then "TIMESTAMPTZ"
  else if tn = "NaiveDateTime" then "TIMESTAMP"
  else if tn = "NaiveDate" ∨ tn = "Date" then "DATE"
  else if tn = "NaiveTime" ∨ tn = "Time" then "TIME"
  else if tn = "Uuid" ∨ tn = "Option<Uuid>" then "UUID"
  else if tn = "Vec<u8>" then "BYTEA"
  else if tn = "Vec<String>" then "TEXT[]"
  else if tn = "Vec<Uuid>" then "UUID[]"
  else if tn = "Map" then "JSONB"
  else tn

/-- Embeds `Column::format_value` from `database/mysql.rs` (lines 90-157): the
type-directed rendering of a string into a MySQL literal. -/
def mysql_format_value (col : Column) (value : String) : String :=
  let tn := col.type_name
  if tn = "bool" then (if value = "true" then "TRUE" else "FALSE")
  else if tn ∈ uintTypeNames then (if rust_u64_ok value then value else "NULL")
  else if tn ∈ intTypeNames then (if rust_i64_ok value then value else "NULL")
  else if tn ∈ floatTypeNames then (if rust_f64_ok value then value else "NULL")
  else if tn ∈ stringTypeNames then escape_string value
  else if tn = "DateTime" ∨ tn = "NaiveDateTime" then
    (if value = "epoch" then "from_unixtime(0)"
     else if value = "now" then "current_timestamp(6)"
     else if value = "today" then "curdate()"
     else if value = "tomorrow" then "curdate() + INTERVAL 1 DAY"
     else if value = "yesterday" then "curdate() - INTERVAL 1 DAY"
     else escape_string value)
  else if tn = "Date" ∨ tn = "NaiveDate" then
    (if value = "epoch" then squote ++ "1970-01-01" ++ squote
     else if value = "today" then "curdate()"
     else if value = "tomorrow" then "curdate() + INTERVAL 1 DAY"
     else if value = "yesterday" then "curdate() - INTERVAL 1 DAY"
     else escape_string value)
  else if tn = "Time" ∨ tn = "NaiveTime" then
    (if value = "now" then "curtime()"
     else if value = "midnight" then squote ++ "00:00:00" ++ squote
     else escape_string value)
  else if tn = "Vec<u8>" then squote ++ "value" ++ squote
  else if tn = "Vec<String>" ∨ tn = "Vec<Uuid>" then
    (if strContains value ',' then
      "json_array(" ++
        String.intercalate "," ((splitChar value ',').map escape_string) ++ ")"
     else "json_array(" ++ escape_string value ++ ")")
  else if tn = "Map" then squote ++ escape_string value ++ squote
  else "NULL"

/-- Embeds `Column::format_value` from `database/postgres.rs` (lines 79-147): the
type-directed rendering of a string into a PostgreSQL literal. -/
def pg_format_value (col : Column) (value : String) : String :=
  let tn := col.type_name
  if tn = "bool" then (if value = "true" then "TRUE" else "FALSE")
  else if tn ∈ uintTypeNames then (if rust_u64_ok value then value else "NULL")
  else if tn ∈ intTypeNames then (if rust_i64_ok value then value else "NULL")
  else if tn ∈ floatTypeNames then (if rust_f64_ok value then value else "NULL")
  else if tn ∈ stringTypeNames then escape_string value
  else if tn = "DateTime" ∨ tn = "NaiveDateTime" then
    (if value = "epoch" then squote ++ "epoch" ++ squote
     else if value = "now" then "now()"
     else if value = "today" then "date_trunc(" ++ squote ++ "day" ++ squote ++ ", now())"
     else if value = "tomorrow" then
       "date_trunc(" ++ squote ++ "day" ++ squote ++ ", now()) + " ++
         squote ++ "1 day" ++ squote ++ "::INTERVAL"
     else if value = "yesterday" then
       "date_trunc(" ++ squote ++ "day" ++ squote ++ ", now()) - " ++
         squote ++ "1 day" ++ squote ++ "::INTERVAL"
     else escape_string value)
  else if tn = "Date" ∨ tn = "NaiveDate" then
    (if value = "epoch" then squote ++ "epoch" ++ squote
     else if value = "today" then "curdate()"
     else if value = "tomorrow" then "curdate() + INTERVAL 1 DAY"
     else if value = "yesterday" then "curdate() - INTERVAL 1 DAY"
     else escape_string value)
  else if tn = "Time" ∨ tn = "NaiveTime" then
    (if value = "now" then "curtime()"
     else if value = "midnight" then squote ++ "allballs" ++ squote
     else escape_string value)
  else if tn = "Vec<u8>" then squote ++ "\\x" ++ value ++ squote
  else if tn = "Vec<String>" ∨ tn = "Vec<Uuid>" then
    (if strContains value ',' then
      "ARRAY[" ++ String.intercalate "," ((splitChar value ',').map escape_string) ++
        "]::" ++ pg_column_type col
     else "ARRAY[" ++ escape_string value ++ "]::" ++ pg_column_type col)
  else if tn = "Map" then escape_string value ++ "::jsonb"
  else "NULL"

/-- Four lowercase hex digits of a code point, embedding the `\u00xx` escapes of
the JSON serializer. -/
def hexDigit (n : Nat) : Char :=
  if n < 10 then Char.ofNat (48 + n) else Char.ofNat (87 + n)

/-- Escapes one character the way the JSON serializer renders string contents. -/
def jsonEscapeChar (c : Char) : String :=
  if c = Char.ofNat 34 then "\\" ++ String.singleton (Char.ofNat 34)
  else if c = '\\' then "\\\\"
  else if c = Char.ofNat 8 then "\\b"
  else if c = Char.ofNat 12 then "\\f"
  else if c = Char.ofNat 10 then "\\n"
  else if c = Char.ofNat 13 then "\\r"
  else if c = Char.ofNat 9 then "\\t"
  else if c.toNat < 32 then
    "\\u00" ++ String.singleton (hexDigit (c.toNat / 16)) ++
      String.singleton (hexDigit (c.toNat % 16))
  else String.singleton c

/-- Renders a JSON string literal with double quotes, as the serializer does. -/
def jsonQuote (s : String) : String :=
  String.singleton (Char.ofNat 34) ++
    String.join (s.toList.map jsonEscapeChar) ++ String.singleton (Char.ofNat 34)

mutual

/-- Compact JSON serialization of a document value, embedding the `Display`
rendering used by `format!` on a `serde_json::Value`. -/
def jsonRender : JsonValue → String
  | .null => "null"
  | .bool true => "true"
  | .bool false => "false"
  | .num n => toString n
  | .str s => jsonQuote s
  | .arr xs => "[" ++ String.intercalate "," (jsonRenderList xs) ++ "]"
  | .obj kvs => "\x7b" ++ String.intercalate "," (jsonRenderPairs kvs) ++ "\x7d"

/-- Serializes each element of a JSON array. -/
def jsonRenderList : List JsonValue → List String
  | [] => []
  | v :: vs => jsonRender v :: jsonRenderList vs

/-- Serializes each `key:value` entry of a JSON object. -/
def jsonRenderPairs : List (String × JsonValue) → List String
  | [] => []
  | (k, v) :: kvs => (jsonQuote k ++ ":" ++ jsonRender v) :: jsonRenderPairs kvs

end

mutual

/-- Embeds the `Some(value)` arm of `Column::encode_value` from
`database/mysql.rs` (lines 49-82). -/
def mysql_encode_json (col : Column) : JsonValue → String
  | .null => "NULL"
  | .bool b => if b then "TRUE" else "FALSE"
  | .num n => toString n
  | .str s =>
    if s = "" then
      (match col.default_value with
       | some d => mysql_format_value col d
       | none => squote ++ squote)
    else if s = "null" then "NULL"
    else mysql_format_value col s
  | .arr xs =>
    "json_array(" ++ String.intercalate "," (mysql_encode_elems col xs) ++ ")"
  | .obj kvs => squote ++ jsonRender (.obj kvs) ++ squote

/-- Embeds the per-element encoding inside the array arm of the MySQL
`Column::encode_value`: strings are escaped, other values recurse. -/
def mysql_encode_elems (col : Column) : List JsonValue → List String
  | [] => []
  | v :: vs =>
    (match v with
     | .str s => escape_string s
     | v => mysql_encode_json col v) :: mysql_encode_elems col vs

end

/-- Embeds `Column::encode_value` from `database/mysql.rs` (lines 49-88); the
argument is `none` when the model supplies no value for the column. -/
def mysql_encode_value (col : Column) : Option JsonValue → String
  | some v => mysql_encode_json col v
  | none => if col.default_value.isSome then "DEFAULT" else "NULL"

mutual

/-- Embeds the `Some(value)` arm of `Column::encode_value` from
`database/postgres.rs` (lines 38-71). -/
def pg_encode_json (col : Column) : JsonValue → String
  | .null => "NULL"
  | .bool b => if b then "TRUE" else "FALSE"
  | .num n => toString n
  | .str s =>
    if s = "" then
      (match col.default_value with
       | some d => pg_format_value col d
       | none => squote ++ squote)
    else if s = "null" then "NULL"
    else pg_format_value col s
  | .arr xs =>
    "ARRAY[" ++ String.intercalate "," (pg_encode_elems col xs) ++ "]::" ++
      pg_column_type col
  | .obj kvs => squote ++ jsonRender (.obj kvs) ++ squote ++ "::" ++ pg_column_type col

/-- Embeds the per-element encoding inside the array arm of the PostgreSQL
`Column::encode_value`. -/
def pg_encode_elems (col : Column) : List JsonValue → List String
  | [] => []
  | v :: vs =>
    (match v with
     | .str s => escape_string s
     | v => pg_encode_json col v) :: pg_encode_elems col vs

end

/-- Embeds `Column::encode_value` from `database/postgres.rs` (lines 38-77). -/
def pg_encode_value (col : Column) : Option JsonValue → String
  | some v => pg_encode_json col v
  | none => if col.default_value.isSome then "DEFAULT" else "NULL"

/-- Embeds `Query::format_field` from `database/mysql.rs` (lines 453-464):
each dot-separated component is wrapped in backticks. -/
def mysql_format_field (field : String) : String :=
  if strContains field '.' then
    String.intercalate "." ((splitChar field '.').map (fun s => "`" ++ s ++ "`"))
  else "`" ++ field ++ "`"

/-- Embeds `Query::format_field` from `database/postgres.rs` (lines 474-485):
each dot-separated component is wrapped in double quotes. -/
def pg_format_field (field : String) : String :=
  let dq := String.singleton (Char.ofNat 34)
  if strContains field '.' then
    String.intercalate "." ((splitChar field '.').map (fun s => dq ++ s ++ dq))
  else dq ++ field ++ dq

/-- Maps a `$`-operator key to its MySQL SQL comparison operator
(`database/mysql.rs` lines 170-180). -/
def mysql_op (name : String) : String :=
  if name = "$eq" then "="
  else if name = "$ne" then "<>"
  else if name = "$lt" then "<"
  else if name = "$lte" then "<="
  else if name = "$gt" then ">"
  else if name = "$gte" then ">="
  else if name = "$in" then "IN"
  else if name = "$nin" then "NOT IN"
  else "="

/-- Maps a `$`-operator key to its PostgreSQL SQL operator
(`database/postgres.rs` lines 159-171). -/
def pg_op (name : String) : String :=
  if name = "$eq" then "="
  else if name = "$ne" then "<>"
  else if name = "$lt" then "<"
  else if name = "$lte" then "<="
  else if name = "$gt" then ">"
  else if name = "$gte" then ">="
  else if name = "$in" then "IN"
  else if name = "$nin" then "NOT IN"
  else if name = "$all" then "@>"
  else if name = "$size" then "array_length"
  else "="

/-- Embeds the condition-collecting loop of the non-`Map` object arm of the
MySQL `Column::format_filter` (lines 168-198): each operator entry contributes
at most one condition, and an `IN`/`NOT IN` entry whose operand is missing or an
empty array contributes none. -/
def mysql_obj_conds (col : Column) (field : String) :
    List (String × JsonValue) → List String
  | [] => []
  | (name, v) :: rest =>
    let operator := mysql_op name
    let conds :=
      if operator = "IN" ∨ operator = "NOT IN" then
        (match v with
         | .arr vs =>
           if vs.isEmpty then []
           else
             [mysql_format_field field ++ " " ++ operator ++ " (" ++
               String.intercalate "," (vs.map (fun x => mysql_encode_value col (some x))) ++
               ")"]
         | _ => [])
      else
        [mysql_format_field field ++ " " ++ operator ++ " " ++
          mysql_encode_value col (some v)]
    conds ++ mysql_obj_conds col field rest

/-- Embeds the condition-collecting loop of the non-`Map` object arm of the
PostgreSQL `Column::format_filter` (lines 157-194), including the `$all` and
`$size` operators. -/
def pg_obj_conds (col : Column) (field : String) :
    List (String × JsonValue) → List String
  | [] => []
  | (name, v) :: rest =>
    let operator := pg_op name
    let conds :=
      if operator = "array_length" then
        ["array_length(" ++ pg_format_field field ++ ", 1) = " ++
          pg_encode_value col (some v)]
      else if operator = "IN" ∨ operator = "NOT IN" then
        (match v with
         | .arr vs =>
           if vs.isEmpty then []
           else
             [pg_format_field field ++ " " ++ operator ++ " (" ++
               String.intercalate "," (vs.map (fun x => pg_encode_value col (some x))) ++
               ")"]
         | _ => [])
      else
        [pg_format_field field ++ " " ++ operator ++ " " ++
          pg_encode_value col (some v)]
    conds ++ pg_obj_conds col field rest

/-- Byte/char index of the first character outside the comparison-prefix set
`<`, `>`, `=`, with `0` when every character is in the set
(`value.find(..).unwrap_or(0)` in both dialect filters). -/
def cmpOpIdx (v : String) : Nat :=
  (v.toList.findIdx? (fun c => !(c = '<' ∨ c = '>' ∨ c = '='))).getD 0

/-- The part of a string before its first comma. -/
def beforeComma (v : String) : String :=
  String.mk (v.toList.takeWhile (· ≠ ','))

/-- The part of a string after its first comma. -/
def afterComma (v : String) : String :=
  String.mk ((v.toList.dropWhile (· ≠ ',')).drop 1)

/-- Embeds `Column::format_filter` from `database/mysql.rs` (lines 159-332). -/
def mysql_format_filter (col : Column) (field : String) (value : JsonValue) : String :=
  let tn := col.type_name
  match value with
  | .obj kvs =>
    if tn = "Map" then
      "json_overlaps(" ++ mysql_format_field field ++ ", " ++
        mysql_encode_value col (some (.obj kvs)) ++ ")"
    else
      let conditions := mysql_obj_conds col field kvs
      if conditions.isEmpty then ""
      else "(" ++ String.intercalate " AND " conditions ++ ")"
  | value =>
    if tn = "bool" then
      let f := mysql_format_field field
      if mysql_encode_value col (some value) = "TRUE" then f ++ " IS TRUE"
      else f ++ " IS NOT TRUE"
    else if tn ∈ numericTimeTypeNames then
      let f := mysql_format_field field
      match value with
      | .str v =>
        if strContains v ',' then
          f ++ " >= " ++ mysql_format_value col (beforeComma v) ++ " AND " ++
            f ++ " < " ++ mysql_format_value col (afterComma v)
        else
          let idx := cmpOpIdx v
          if idx > 0 then
            f ++ " " ++ String.mk (v.toList.take idx) ++ " " ++
              mysql_format_value col (String.mk (v.toList.drop idx))
          else f ++ " = " ++ mysql_format_value col v
      | value => f ++ " = " ++ mysql_encode_value col (some value)
    else if tn = "String" then
      let f := mysql_format_field field
      match value with
      | .str v =>
        if v = "null" then "(" ++ f ++ " = " ++ squote ++ squote ++ ") IS NOT FALSE"
        else if v = "notnull" then "(" ++ f ++ " = " ++ squote ++ squote ++ ") IS FALSE"
        else
          let idx := (v.toList.findIdx? (fun c => !(c = '!' ∨ c = '~' ∨ c = '*'))).getD 0
          if idx > 0 then
            f ++ " " ++ String.mk (v.toList.take idx) ++ " " ++
              escape_string (String.mk (v.toList.drop idx))
          else f ++ " = " ++ escape_string v
      | value => f ++ " = " ++ mysql_encode_value col (some value)
    else if tn = "Uuid" ∨ tn = "Option<Uuid>" then
      let f := mysql_format_field field
      match value with
      | .str v =>
        if v = "null" then f ++ " IS NULL"
        else if v = "notnull" then f ++ " IS NOT NULL"
        else if strContains v ',' then
          f ++ " IN (" ++
            String.intercalate "," ((splitChar v ',').map escape_string) ++ ")"
        else f ++ " = " ++ escape_string v
      | value => f ++ " = " ++ mysql_encode_value col (some value)
    else if tn = "Vec<String>" ∨ tn = "Vec<Uuid>" then
      let f := mysql_format_field field
      match value with
      | .str v =>
        if strContains v ';' then
          if strContains v ',' then
            String.intercalate " OR "
              ((splitChar v ',').map (fun p =>
                "json_overlaps(" ++ f ++ ", " ++
                  mysql_format_value col (replaceChar p ';' ",") ++ ")"))
          else
            String.intercalate " AND "
              ((splitChar v ';').map (fun p =>
                "json_overlaps(" ++ f ++ ", " ++ mysql_format_value col p ++ ")"))
        else "json_overlaps(" ++ f ++ ", " ++ mysql_format_value col v ++ ")"
      | value =>
        "json_overlaps(" ++ f ++ ", " ++ mysql_encode_value col (some value) ++ ")"
    else if tn = "Map" then
      "json_overlaps(" ++ mysql_format_field field ++ ", " ++
        mysql_encode_value col (some value) ++ ")"
    else
      mysql_format_field field ++ " = " ++ mysql_encode_value col (some value)

/-- Embeds `Column::format_filter` from `database/postgres.rs` (lines 149-329). -/
def pg_format_filter (col : Column) (field : String) (value : JsonValue) : String :=
  let tn := col.type_name
  match value with
  | .obj kvs =>
    if tn = "Map" then
      pg_format_field field ++ " @> " ++ pg_encode_value col (some (.obj kvs))
    else
      let conditions := pg_obj_conds col field kvs
      if conditions.isEmpty then ""
      else "(" ++ String.intercalate " AND " conditions ++ ")"
  | value =>
    if tn = "bool" then
      let f := pg_format_field field
      if pg_encode_value col (some value) = "TRUE" then f ++ " IS TRUE"
      else f ++ " IS NOT TRUE"
    else if tn ∈ numericTimeTypeNames then
      let f := pg_format_field field
      match value with
      | .str v =>
        if strContains v ',' then
          f ++ " >= " ++ pg_format_value col (beforeComma v) ++ " AND " ++
            f ++ " < " ++ pg_format_value col (afterComma v)
        else
          let idx := cmpOpIdx v
          if idx > 0 then
            f ++ " " ++ String.mk (v.toList.take idx) ++ " " ++
              pg_format_value col (String.mk (v.toList.drop idx))
          else f ++ " = " ++ pg_format_value col v
      | value => f ++ " = " ++ pg_encode_value col (some value)
    else if tn = "String" then
      let f := pg_format_field field
      match value with
      | .str v =>
        if v = "null" then "(" ++ f ++ " = " ++ squote ++ squote ++ ") IS NOT FALSE"
        else if v = "notnull" then "(" ++ f ++ " = " ++ squote ++ squote ++ ") IS FALSE"
        else
          let idx := (v.toList.findIdx? (fun c => !(c = '!' ∨ c = '~' ∨ c = '*'))).getD 0
          if idx > 0 then
            f ++ " " ++ String.mk (v.toList.take idx) ++ " " ++
              escape_string (String.mk (v.toList.drop idx))
          else f ++ " = " ++ escape_string v
      | value => f ++ " = " ++ pg_encode_value col (some value)
    else if tn = "Uuid" ∨ tn = "Option<Uuid>" then
      let f := pg_format_field field
      match value with
      | .str v =>
        if v = "null" then f ++ " IS NULL"
        else if v = "notnull" then f ++ " IS NOT NULL"
        else if strContains v ',' then
          f ++ " IN (" ++
            String.intercalate "," ((splitChar v ',').map escape_string) ++ ")"
        else f ++ " = " ++ escape_string v
      | value => f ++ " = " ++ pg_encode_value col (some value)
    else if tn = "Vec<String>" ∨ tn = "Vec<Uuid>" then
      let f := pg_format_field field
      match value with
      | .str v =>
        if strContains v ';' then
          if strContains v ',' then
            String.intercalate " OR "
              ((splitChar v ',').map (fun p =>
                f ++ " @> " ++ pg_format_value col (replaceChar p ';' ",")))
          else f ++ " @> " ++ pg_format_value col (replaceChar v ';' ",")
        else f ++ " && " ++ pg_format_value col v
      | value => f ++ " && " ++ pg_encode_value col (some value)
    else if tn = "Map" then
      let f := pg_format_field field
      match value with
      | .str v => f ++ " @? " ++ escape_string v
      | value => f ++ " @> " ++ pg_encode_value col (some value)
    else
      pg_format_field field ++ " = " ++ pg_encode_value col (some value)

/-- A registered connection pool: its non-unique `name` and a snapshot of its
atomic `available` flag (`ConnectionPool` in `database/mod.rs`, lines 67-77; the
driver handle and database name play no role in the lookup logic). -/
structure CPool where
  name : String
  available : Bool
  deriving DecidableEq

/-- Embeds the loop of `ConnectionPools::get_pool` (`database/mod.rs` lines
189-199): walk the registered pools whose name matches; return the first
available one immediately, otherwise remember the last-seen match. -/
def get_pool_loop : List CPool → String → Option CPool → Option CPool
  | [], _, acc => acc
  | cp :: rest, name, acc =>
    if cp.name = name then
      (if cp.available then some cp else get_pool_loop rest name (some cp))
    else get_pool_loop rest name acc

/-- Embeds `ConnectionPools::get_pool` (`database/mod.rs` lines 189-199). -/
def ConnectionPools.get_pool (pools : List CPool) (name : String) : Option CPool :=
  get_pool_loop pools name none

/-- Embeds `State::get_pool` from `src/lib/src/state.rs` (lines 72-74):
`self.pools.iter().find(|c| c.name() == name)`.  The `ConnectionPool` struct of
that crate is not under `src/`; its availability flag is modelled from the
spec's pool data model (section 3). -/
def State.get_pool (pools : List CPool) (name : String) : Option CPool :=
  pools.find? (fun c => c.name == name)

/-- The effect of one run of the `before_acquire` hook: which pool (if any) has
its availability flag stored, with which value, and whether the acquisition
check succeeds (`Except.ok true` keeps the connection) or fails with the ping
error. -/
structure HookEffect where
  write : Option (CPool × Bool)
  result : Except Unit Bool

/-- Embeds the `before_acquire` health-check hook of `ConnectionPool::connect_lazy`
(`database/mod.rs` lines 156-171): when the connection has been idle strictly
longer than `health_check_interval` seconds and the shared registry resolves the
pool name, a ping is attempted; a failed ping stores `false` and fails the
acquisition, a successful ping stores whether the pool has at least one idle
connection; otherwise nothing is stored and the connection is accepted. -/
def before_acquire (pools : List CPool) (name : String)
    (health_check_interval idle_secs : Nat) (ping_ok : Bool) (num_idle : Nat) :
    HookEffect :=
  if idle_secs > health_check_interval then
    match ConnectionPools.get_pool pools name with
    | some cp =>
      if ping_ok then ⟨some (cp, decide (num_idle > 0)), .ok true⟩
      else ⟨some (cp, false), .error ()⟩
    | none => ⟨none, .ok true⟩
  else ⟨none, .ok true⟩

/-- A TOML configuration value (the variants the pool configuration uses). -/
inductive TomlValue where
  | str (s : String)
  | int (n : Int)
  | bool (b : Bool)
  deriving DecidableEq

/-- A TOML table as an association list in key order. -/
def TomlTable := List (String × TomlValue)

/-- Modelled from the spec: `TomlTableExt::get_str` (the extension trait's file is
absent from `src/`) returns the value of a key when it is a string. -/
def toml_get_str (t : TomlTable) (key : String) : Option String :=
  match t.find? (fun kv => kv.1 = key) with
  | some (_, .str s) => some s
  | _ => none

/-- Modelled from the spec: `TomlTableExt::get_u16` returns the value of a key
when it is an integer representable as a `u16`. -/
def toml_get_u16 (t : TomlTable) (key : String) : Option Nat :=
  match t.find? (fun kv => kv.1 = key) with
  | some (_, .int n) => if 0 ≤ n ∧ n < 65536 then some n.toNat else none
  | _ => none

/-- Modelled from the spec: `TomlTableExt::get_usize` returns the value of a key
when it is an integer representable as a `usize`. -/
def toml_get_usize (t : TomlTable) (key : String) : Option Nat :=
  match t.find? (fun kv => kv.1 = key) with
  | some (_, .int n) => if 0 ≤ n ∧ n < 2 ^ 64 then some n.toNat else none
  | _ => none

/-- The database connect options assembled by `ConnectionPool::connect_lazy`
(`host`, `port` and `statement_cache_capacity` start from the driver's
defaults). -/
structure DbConnectOptions where
  database : String
  username : String
  password : String
  host : String
  port : Nat
  statement_cache_capacity : Nat
  deriving DecidableEq

/-- Embeds the connect-options section of `ConnectionPool::connect_lazy`
(`database/mod.rs` lines 114-135): the required `database`, `username` and
`password` fields are read (a missing one is the `none` panic case), then the
optional `host` key, the `hport` key as a `u16`, and the
`statement-cache-capacity` key are applied on top of the driver defaults
`dflt`. -/
def connect_lazy_options (config : TomlTable) (dflt : DbConnectOptions) :
    Option DbConnectOptions :=
  match toml_get_str config "database", toml_get_str config "username",
      toml_get_str config "password" with
  | some database, some username, some password =>
    let o := { dflt with database := database, username := username, password := password }
    let o := match toml_get_str config "host" with
      | some host => { o with host := host }
      | none => o
    let o := match toml_get_u16 config "hport" with
      | some port => { o with port := port }
      | none => o
    let o := match toml_get_usize config "statement-cache-capacity" with
      | some c => { o with statement_cache_capacity := c }
      | none => o
    some o
  | _, _, _ => none

/-- A model rendered to a JSON object map (`Model::into_map`). -/
def ModelMap := List (String × JsonValue)

/-- Embeds `map.get(key)` on a model's JSON object map. -/
def ModelMap.get (map : ModelMap) (key : String) : Option JsonValue :=
  (List.find? (fun kv => kv.1 = key) map).map (fun kv => kv.2)

/-- Embeds `Schema::insert` (`database/schema.rs` lines 158-178): every declared
column contributes its name and its encoded value, in declaration order. -/
def insert_sql (table_name : String) (columns : List Column) (map : ModelMap) :
    String :=
  let keys := columns.map (fun col => col.name)
  let values := columns.map (fun col => pg_encode_value col (map.get col.name))
  "INSERT INTO " ++ table_name ++ " (" ++ String.intercalate "," keys ++
    ") VALUES (" ++ String.intercalate "," values ++ ");"

/-- Embeds the accumulation loop of `Schema::insert_many` (`database/schema.rs`
lines 184-196): for each model, every declared column pushes its name onto the
shared `keys` vector and its encoded value into the model's row tuple. -/
def insert_many_loop (columns : List Column) :
    List ModelMap → List String × List String
  | [] => ([], [])
  | map :: rest =>
    let keys := columns.map (fun col => col.name)
    let entries := columns.map (fun col => pg_encode_value col (map.get col.name))
    let (restKeys, restValues) := insert_many_loop columns rest
    (keys ++ restKeys, ("(" ++ String.intercalate "," entries ++ ")") :: restValues)

/-- Embeds `Schema::insert_many` (`database/schema.rs` lines 181-205). -/
def insert_many_sql (table_name : String) (columns : List Column)
    (maps : List ModelMap) : String :=
  let (keys, values) := insert_many_loop columns maps
  "INSERT INTO " ++ table_name ++ " (" ++ String.intercalate "," keys ++
    ") VALUES " ++ String.intercalate "," values ++ ";"

/-- Whether a character list starts with the given pattern. -/
def leadMatch : List Char → List Char → Bool
  | _, [] => true
  | [], _ :: _ => false
  | c :: cs, p :: ps => (c = p) && leadMatch cs ps

/-- Whether a character list contains the given pattern as a contiguous
sublist. -/
def hasSub (pat : List Char) : List Char → Bool
  | [] => leadMatch [] pat
  | c :: rest => leadMatch (c :: rest) pat || hasSub pat rest

/-- Whether a string contains the given substring. -/
def strHasSub (s pat : String) : Bool := hasSub pat.toList s.toList

/-- Fixture: a 64-bit signed integer column named `age`. -/
def ageCol : Column := ⟨"age", "i64", none, none⟩

/-- Fixture: a boolean column named `active`. -/
def boolCol : Column := ⟨"active", "bool", none, none⟩

/-- Fixture: a string column named `name`. -/
def nameCol : Column := ⟨"name", "String", none, none⟩

/-- Fixture: a string column named `status` with a default value. -/
def statusCol : Column := ⟨"status", "String", some "active", none⟩

/-- Fixture: a timestamp column named `created`. -/
def createdCol : Column := ⟨"created", "DateTime", none, none⟩

/-- Fixture: a string-array column named `tags`. -/
def tagsCol : Column := ⟨"tags", "Vec<String>", none, none⟩

/-- Fixture: a byte-sequence column named `data`. -/
def bytesCol : Column := ⟨"data", "Vec<u8>", none, none⟩

/-- Fixture: a pool configuration table that supplies a `port` key (along with
the required fields, a `host` and a `statement-cache-capacity`). -/
def portConfig : TomlTable :=
  [("database", .str "db"), ("username", .str "u"), ("password", .str "p"),
   ("host", .str "example.com"), ("port", .int 5433),
   ("statement-cache-capacity", .int 200)]

/-- Fixture: driver-default connect options (PostgreSQL defaults). -/
def defaultOptions : DbConnectOptions := ⟨"", "", "", "localhost", 5432, 100⟩

/-- The six comparison operator keys and the SQL operators the spec assigns to
them. -/
def cmpOpPairs : List (String × String) :=
  [("$eq", "="), ("$ne", "<>"), ("$lt", "<"), ("$lte", "<="),
   ("$gt", ">"), ("$gte", ">=")]

/-- Every semantic type tag matched by a dedicated `format_value` arm; any other
tag falls through to the final `NULL` arm. -/
def knownTypeNames : List String :=
  ["bool"] ++ uintTypeNames ++ intTypeNames ++ floatTypeNames ++ stringTypeNames ++
    ["DateTime", "NaiveDateTime", "Date", "NaiveDate", "Time", "NaiveTime",
     "Vec<u8>", "Vec<String>", "Vec<Uuid>", "Map"]

/-- The date/time semantic type tags. -/
def temporalTypeNames : List String :=
  ["DateTime", "NaiveDateTime", "Date", "NaiveDate", "Time", "NaiveTime"]

/-- Every keyword alias recognized by some temporal `format_value` arm. -/
def temporalKeywords : List String :=
  ["epoch", "now", "today", "tomorrow", "yesterday", "midnight"]

/-- Claim C10: under the MySQL dialect, `format_value` on a `Vec<u8>` column
returns the constant literal `'value'` for every input string, while under the
PostgreSQL dialect it embeds the input in the hex-escape literal `'\x{input}'`. -/
theorem c10_byte_column_format_value (col : Column) (h : col.type_name = "Vec<u8>")
    (s : String) :
    mysql_format_value col s = squote ++ "value" ++ squote ∧
    pg_format_value col s = squote ++ "\\x" ++ s ++ squote := by
  constructor <;>
    simp [mysql_format_value, pg_format_value, h, uintTypeNames, intTypeNames,
      floatTypeNames, stringTypeNames]

/-- Witness for C10 at a concrete column and input. -/
theorem c10_byte_column_format_value_witness :
    mysql_format_value bytesCol "cafe" = squote ++ "value" ++ squote ∧
    pg_format_value bytesCol "cafe" = squote ++ "\\x" ++ "cafe" ++ squote :=
  c10_byte_column_format_value bytesCol rfl "cafe"

/-- Claim C8: in the before-acquire health-check hook, when the connection has
been idle strictly longer than the health-check interval (and the registry
resolves the pool name), a failed ping stores `false` into the pool's
availability and fails the acquisition with the ping error, while a successful
ping stores `true` exactly when the pool reports at least one idle connection;
when the idle time is within the threshold no availability is stored and the
connection is accepted. -/
theorem c8_before_acquire_health_check (pools : List CPool) (name : String)
    (interval idle num_idle : Nat) (cp : CPool)
    (hfound : ConnectionPools.get_pool pools name = some cp) :
    (idle > interval →
      before_acquire pools name interval idle false num_idle =
        ⟨some (cp, false), .error ()⟩ ∧
      before_acquire pools name interval idle true num_idle =
        ⟨some (cp, decide (num_idle > 0)), .ok true⟩) ∧
    (¬ idle > interval →
      ∀ ping_ok : Bool,
        before_acquire pools name interval idle ping_ok num_idle =
          ⟨none, .ok true⟩) := by
  constructor
  · intro hidle
    constructor <;> simp [before_acquire, hidle, hfound]
  · intro hidle ping_ok
    simp [before_acquire, hidle]

/-- Witness for C8: one registered available pool, a sixty-second interval and a
sixty-one-second idle time with a failed ping. -/
theorem c8_before_acquire_health_check_witness :
    before_acquire [⟨"main", true⟩] "main" 60 61 false 0 =
      ⟨some (⟨"main", true⟩, false), .error ()⟩ :=
  ((c8_before_acquire_health_check [⟨"main", true⟩] "main" 60 61 0 ⟨"main", true⟩
    rfl).1 (by decide)).1

/-- Claim C9 (code bug): `connect_lazy` looks up the configuration key `hport`
instead of the documented `port`, so a configuration that supplies `port` keeps
the driver's default port even though its `host` and `statement-cache-capacity`
keys are applied; supplying the misspelled `hport` key is what actually changes
the port. -/
theorem c9_port_key_ignored :
    connect_lazy_options portConfig defaultOptions =
      some ⟨"db", "u", "p", "example.com", 5432, 200⟩ ∧
    toml_get_u16 portConfig "port" = some 5433 ∧
    connect_lazy_options (("hport", .int 5433) :: portConfig) defaultOptions =
      some ⟨"db", "u", "p", "example.com", 5433, 200⟩ := by
  decide

/-- Claim C2 (code bug): `insert` projects each declared column exactly once,
but `insert_many` pushes the column-name list once per model, so two models over
a one-column schema compile to an INSERT whose column list names the column
twice. -/
theorem c2_insert_many_duplicate_columns :
    insert_sql "zino_user" [nameCol] [("name", .str "a")] =
      "INSERT INTO zino_user (name) VALUES (" ++ squote ++ "a" ++ squote ++ ");" ∧
    insert_many_sql "zino_user" [nameCol]
        [[("name", .str "a")], [("name", .str "b")]] =
      "INSERT INTO zino_user (name,name) VALUES (" ++ squote ++ "a" ++ squote ++
        "),(" ++ squote ++ "b" ++ squote ++ ");" := by
  decide

/-- The availability-aware match predicate of the pool lookup. -/
def availMatch (name : String) (c : CPool) : Bool :=
  (c.name == name) && c.available

/-- The plain name-match predicate of the pool lookup. -/
def nameMatch (name : String) (c : CPool) : Bool :=
  c.name == name

theorem get_pool_loop_of_find?_some (pools : List CPool) (name : String)
    (acc : Option CPool) (cp : CPool)
    (h : pools.find? (availMatch name) = some cp) :
    get_pool_loop pools name acc = some cp := by
  induction pools generalizing acc with
  | nil => simp at h
  | cons hd tl ih =>
    by_cases hm : hd.name = name
    · by_cases ha : hd.available
      · have hp : availMatch name hd = true := by simp [availMatch, hm, ha]
        rw [List.find?_cons_of_pos _ hp] at h
        cases h
        simp [get_pool_loop, hm, ha]
      · have hp : availMatch name hd = false := by simp [availMatch, ha]
        rw [List.find?_cons_of_neg _ (by simp [hp])] at h
        simp [get_pool_loop, hm, ha, ih _ h]
    · have hp : availMatch name hd = false := by simp [availMatch, hm]
      rw [List.find?_cons_of_neg _ (by simp [hp])] at h
      simp [get_pool_loop, hm, ih _ h]

theorem get_pool_loop_of_find?_none (pools : List CPool) (name : String)
    (acc : Option CPool)
    (h : pools.find? (availMatch name) = none) :
    get_pool_loop pools name acc =
      ((pools.filter (nameMatch name)).getLast?).orElse (fun _ => acc) := by
  induction pools generalizing acc with
  | nil => simp [get_pool_loop]
  | cons hd tl ih =>
    by_cases hm : hd.name = name
    · have ha : hd.available = false := by
        cases hav : hd.available
        · rfl
        · have hp : availMatch name hd = true := by simp [availMatch, hm, hav]
          rw [List.find?_cons_of_pos _ hp] at h
          simp at h
      have hp : availMatch name hd = false := by simp [availMatch, ha]
      rw [List.find?_cons_of_neg _ (by simp [hp])] at h
      have hfilter : (hd :: tl).filter (nameMatch name) =
          hd :: tl.filter (nameMatch name) := by
        simp [List.filter_cons, nameMatch, hm]
      rw [hfilter]
      have hloop : get_pool_loop (hd :: tl) name acc =
          get_pool_loop tl name (some hd) := by
        simp [get_pool_loop, hm, ha]
      rw [hloop, ih _ h]
      cases hl : (tl.filter (nameMatch name)).getLast? with
      | none =>
        have : tl.filter (nameMatch name) = [] := by
          cases hfe : tl.filter (nameMatch name) with
          | nil => rfl
          | cons x xs =>
            rw [hfe] at hl
            simp [List.getLast?_isSome] at hl
        simp [this, Option.orElse, hl]
      | some x =>
        have hne : tl.filter (nameMatch name) ≠ [] := by
          intro hfe
          rw [hfe] at hl
          simp at hl
        have : (hd :: tl.filter (nameMatch name)).getLast? =
            (tl.filter (nameMatch name)).getLast? := by
          cases hfe : tl.filter (nameMatch name) with
          | nil => exact absurd hfe hne
          | cons y ys => rw [List.getLast?_cons_cons]
        simp [this, hl, Option.orElse]
    · have hp : availMatch name hd = false := by simp [availMatch, hm]
      rw [List.find?_cons_of_neg _ (by simp [hp])] at h
      have hfilter : (hd :: tl).filter (nameMatch name) =
          tl.filter (nameMatch name) := by
        simp [List.filter_cons, nameMatch, hm]
      have hloop : get_pool_loop (hd :: tl) name acc = get_pool_loop tl name acc := by
        simp [get_pool_loop, hm]
      rw [hfilter, hloop, ih _ h]

theorem get_pool_eq_none_iff (pools : List CPool) (name : String) :
    ConnectionPools.get_pool pools name = none ↔
      pools.filter (nameMatch name) = [] := by
  constructor
  · intro h
    cases hf : pools.find? (availMatch name) with
    | some cp =>
      rw [ConnectionPools.get_pool, get_pool_loop_of_find?_some pools name none cp hf] at h
      cases h
    | none =>
      rw [ConnectionPools.get_pool, get_pool_loop_of_find?_none pools name none hf] at h
      cases hl : (pools.filter (nameMatch name)).getLast? with
      | none =>
        cases hfe : pools.filter (nameMatch name) with
        | nil => rfl
        | cons x xs =>
          rw [hfe] at hl
          simp [List.getLast?_isSome] at hl
      | some x =>
        rw [hl] at h
        simp [Option.orElse] at h
  · intro h
    have hf : pools.find? (availMatch name) = none := by
      rw [List.find?_eq_none]
      intro x hx
      have := List.filter_eq_nil_iff.mp h x hx
      simp [availMatch, nameMatch] at this ⊢
      intro hn
      exact absurd hn this
    rw [ConnectionPools.get_pool, get_pool_loop_of_find?_none pools name none hf, h]
    simp [Option.orElse]

/-- Claim C1 (amended): `ConnectionPools::get_pool` returns the first registered
pool whose name matches and whose availability flag is set, falls back to the
last-seen matching unavailable pool, and returns `none` only when no pool with
the name exists; but the `State::get_pool` lookup of `src/lib/src/state.rs`
returns the first pool whose name matches regardless of availability (it,
too, returns `none` only when no pool with the name exists). -/
theorem c1_pool_lookup_by_name :
    (∀ pools name cp, pools.find? (availMatch name) = some cp →
      ConnectionPools.get_pool pools name = some cp) ∧
    (∀ pools name, pools.find? (availMatch name) = none →
      ConnectionPools.get_pool pools name =
        (pools.filter (nameMatch name)).getLast?) ∧
    (∀ pools name, ConnectionPools.get_pool pools name = none ↔
      pools.filter (nameMatch name) = []) ∧
    (∀ pools name, State.get_pool pools name = pools.find? (nameMatch name)) ∧
    (∀ pools name, State.get_pool pools name = none ↔
      pools.filter (nameMatch name) = []) := by
  refine ⟨?_, ?_, get_pool_eq_none_iff, ?_, ?_⟩
  · intro pools name cp h
    exact get_pool_loop_of_find?_some pools name none cp h
  · intro pools name h
    rw [ConnectionPools.get_pool, get_pool_loop_of_find?_none pools name none h]
    cases hl : (pools.filter (nameMatch name)).getLast? <;> simp [Option.orElse]
  · intro pools name
    rfl
  · intro pools name
    have hsame : State.get_pool pools name = pools.find? (nameMatch name) := rfl
    rw [hsame, List.find?_eq_none, List.filter_eq_nil_iff]

/-- Counterexample to C1 as stated: with an unavailable `main` pool registered
before an available one, the `State::get_pool` lookup of `src/lib` returns the
unavailable first pool, not the available one the claim requires. -/
theorem c1_state_lookup_counterexample :
    State.get_pool [⟨"main", false⟩, ⟨"main", true⟩] "main" =
      some ⟨"main", false⟩ ∧
    List.find? (availMatch "main") [⟨"main", false⟩, ⟨"main", true⟩] =
      some ⟨"main", true⟩ ∧
    State.get_pool [⟨"main", false⟩, ⟨"main", true⟩] "main" ≠
      some ⟨"main", true⟩ := by
  decide

/-- Claim C6: `encode_value` maps an absent value to `DEFAULT` when the column
has a default and to `NULL` otherwise; booleans to `TRUE`/`FALSE`; numbers to
their textual form; a non-empty string other than `"null"` through
`format_value`; the empty string through `format_value` of the default when one
is present; the literal string `"null"` to SQL `NULL`; arrays to the dialect's
array/JSON-array literal; and objects to the dialect's JSON literal. -/
theorem c6_encode_value_mapping :
    (∀ col : Column, col.default_value.isSome →
      mysql_encode_value col none = "DEFAULT" ∧
      pg_encode_value col none = "DEFAULT") ∧
    (∀ col : Column, col.default_value = none →
      mysql_encode_value col none = "NULL" ∧ pg_encode_value col none = "NULL") ∧
    (∀ (col : Column) (b : Bool),
      mysql_encode_value col (some (.bool b)) = (if b then "TRUE" else "FALSE") ∧
      pg_encode_value col (some (.bool b)) = (if b then "TRUE" else "FALSE")) ∧
    (∀ (col : Column) (n : Int),
      mysql_encode_value col (some (.num n)) = toString n ∧
      pg_encode_value col (some (.num n)) = toString n) ∧
    (∀ (col : Column) (s : String), s ≠ "" → s ≠ "null" →
      mysql_encode_value col (some (.str s)) = mysql_format_value col s ∧
      pg_encode_value col (some (.str s)) = pg_format_value col s) ∧
    (∀ (col : Column) (d : String), col.default_value = some d →
      mysql_encode_value col (some (.str "")) = mysql_format_value col d ∧
      pg_encode_value col (some (.str "")) = pg_format_value col d) ∧
    (∀ col : Column,
      mysql_encode_value col (some (.str "null")) = "NULL" ∧
      pg_encode_value col (some (.str "null")) = "NULL") ∧
    (∀ (col : Column) (xs : List JsonValue),
      mysql_encode_value col (some (.arr xs)) =
        "json_array(" ++ String.intercalate "," (mysql_encode_elems col xs) ++ ")" ∧
      pg_encode_value col (some (.arr xs)) =
        "ARRAY[" ++ String.intercalate "," (pg_encode_elems col xs) ++ "]::" ++
          pg_column_type col) ∧
    (∀ (col : Column) (kvs : List (String × JsonValue)),
      mysql_encode_value col (some (.obj kvs)) =
        squote ++ jsonRender (.obj kvs) ++ squote ∧
      pg_encode_value col (some (.obj kvs)) =
        squote ++ jsonRender (.obj kvs) ++ squote ++ "::" ++ pg_column_type col) := by
  refine ⟨?_, ?_, ?_, ?_, ?_, ?_, ?_, ?_, ?_⟩
  · intro col h
    constructor <;> simp [mysql_encode_value, pg_encode_value, h]
  · intro col h
    constructor <;> simp [mysql_encode_value, pg_encode_value, h]
  · intro col b
    constructor <;> simp [mysql_encode_value, pg_encode_value, mysql_encode_json,
      pg_encode_json]
  · intro col n
    constructor <;> rfl
  · intro col s h1 h2
    constructor <;> simp [mysql_encode_value, pg_encode_value, mysql_encode_json,
      pg_encode_json, h1, h2]
  · intro col d h
    constructor <;> simp [mysql_encode_value, pg_encode_value, mysql_encode_json,
      pg_encode_json, h]
  · intro col
    constructor <;> rfl
  · intro col xs
    constructor <;> rfl
  · intro col kvs
    constructor <;> rfl

/-- Witness for C6 at concrete columns, with and without a default value. -/
theorem c6_encode_value_mapping_witness :
    mysql_encode_value statusCol none = "DEFAULT" ∧
    pg_encode_value nameCol none = "NULL" ∧
    mysql_encode_value statusCol (some (.str "")) = mysql_format_value statusCol "active" ∧
    mysql_encode_value nameCol (some (.str "abc")) = mysql_format_value nameCol "abc" :=
  ⟨(c6_encode_value_mapping.1 statusCol (by decide)).1,
   (c6_encode_value_mapping.2.1 nameCol rfl).2,
   (c6_encode_value_mapping.2.2.2.2.2.1 statusCol "active" rfl).1,
   (c6_encode_value_mapping.2.2.2.2.1 nameCol "abc" (by decide) (by decide)).1⟩

theorem intercalate_go_nil (a s : String) : String.intercalate.go a s [] = a := rfl

theorem mysql_obj_conds_append (col : Column) (field : String)
    (l1 l2 : List (String × JsonValue)) :
    mysql_obj_conds col field (l1 ++ l2) =
      mysql_obj_conds col field l1 ++ mysql_obj_conds col field l2 := by
  induction l1 with
  | nil => simp [mysql_obj_conds]
  | cons hd tl ih =>
    cases hd with
    | mk n v => simp [mysql_obj_conds, ih]

theorem pg_obj_conds_append (col : Column) (field : String)
    (l1 l2 : List (String × JsonValue)) :
    pg_obj_conds col field (l1 ++ l2) =
      pg_obj_conds col field l1 ++ pg_obj_conds col field l2 := by
  induction l1 with
  | nil => simp [pg_obj_conds]
  | cons hd tl ih =>
    cases hd with
    | mk n v => simp [pg_obj_conds, ih]

theorem mysql_obj_conds_empty_in (col : Column) (field : String) (name : String)
    (h : name = "$in" ∨ name = "$nin") :
    mysql_obj_conds col field [(name, .arr [])] = [] := by
  rcases h with h | h <;> subst h <;> simp [mysql_obj_conds, mysql_op]

theorem pg_obj_conds_empty_in (col : Column) (field : String) (name : String)
    (h : name = "$in" ∨ name = "$nin") :
    pg_obj_conds col field [(name, .arr [])] = [] := by
  rcases h with h | h <;> subst h <;> simp [pg_obj_conds, pg_op]

theorem mysql_op_of_cmp (n s : String) (h : (n, s) ∈ cmpOpPairs) :
    mysql_op n = s ∧ s ≠ "IN" ∧ s ≠ "NOT IN" := by
  fin_cases h <;> exact ⟨by decide, by decide, by decide⟩

theorem pg_op_of_cmp (n s : String) (h : (n, s) ∈ cmpOpPairs) :
    pg_op n = s ∧ s ≠ "IN" ∧ s ≠ "NOT IN" ∧ s ≠ "array_length" := by
  fin_cases h <;> exact ⟨by decide, by decide, by decide, by decide⟩

theorem mysql_obj_conds_cmp_map (col : Column) (field : String)
    (entries : List ((String × String) × JsonValue))
    (h : ∀ e ∈ entries, e.1 ∈ cmpOpPairs) :
    mysql_obj_conds col field (entries.map (fun e => (e.1.1, e.2))) =
      entries.map (fun e =>
        mysql_format_field field ++ " " ++ e.1.2 ++ " " ++
          mysql_encode_value col (some e.2)) := by
  induction entries with
  | nil => simp [mysql_obj_conds]
  | cons e rest ih =>
    obtain ⟨⟨n, s⟩, v⟩ := e
    obtain ⟨hop, hin, hnin⟩ := mysql_op_of_cmp n s (h _ (List.mem_cons_self _ _))
    simp only [List.map_cons, mysql_obj_conds, hop]
    rw [if_neg (by simp [hin, hnin])]
    simp [ih (fun e he => h e (List.mem_cons_of_mem _ he))]

theorem pg_obj_conds_cmp_map (col : Column) (field : String)
    (entries : List ((String × String) × JsonValue))
    (h : ∀ e ∈ entries, e.1 ∈ cmpOpPairs) :
    pg_obj_conds col field (entries.map (fun e => (e.1.1, e.2))) =
      entries.map (fun e =>
        pg_format_field field ++ " " ++ e.1.2 ++ " " ++
          pg_encode_value col (some e.2)) := by
  induction entries with
  | nil => simp [pg_obj_conds]
  | cons e rest ih =>
    obtain ⟨⟨n, s⟩, v⟩ := e
    obtain ⟨hop, hin, hnin, hlen⟩ := pg_op_of_cmp n s (h _ (List.mem_cons_self _ _))
    simp only [List.map_cons, pg_obj_conds, hop]
    rw [if_neg (by simp [hlen]), if_neg (by simp [hin, hnin])]
    simp [ih (fun e he => h e (List.mem_cons_of_mem _ he))]

/-- Claim C3: on a non-`Map` column, each recognized comparison operator key
compiles to its comparison, `$in`/`$nin` compile to `IN (...)`/`NOT IN (...)`
when their operand array is non-empty and contribute no condition at all when it
is empty, the conditions that remain are joined with `" AND "` (one condition
per operator entry, in entry order), and an empty condition set compiles to the
empty string; all of this in both dialects. -/
theorem c3_object_filter_operators :
    (∀ (col : Column) (field : String) (v : JsonValue) (name sql : String),
      col.type_name ≠ "Map" → (name, sql) ∈ cmpOpPairs →
      mysql_format_filter col field (.obj [(name, v)]) =
        "(" ++ mysql_format_field field ++ " " ++ sql ++ " " ++
          mysql_encode_value col (some v) ++ ")") ∧
    (∀ (col : Column) (field : String) (v : JsonValue) (name sql : String),
      col.type_name ≠ "Map" → (name, sql) ∈ cmpOpPairs →
      pg_format_filter col field (.obj [(name, v)]) =
        "(" ++ pg_format_field field ++ " " ++ sql ++ " " ++
          pg_encode_value col (some v) ++ ")") ∧
    (∀ (col : Column) (field : String) (vs : List JsonValue) (name op : String),
      col.type_name ≠ "Map" →
      ((name = "$in" ∧ op = "IN") ∨ (name = "$nin" ∧ op = "NOT IN")) → vs ≠ [] →
      mysql_format_filter col field (.obj [(name, .arr vs)]) =
        "(" ++ mysql_format_field field ++ " " ++ op ++ " (" ++
          String.intercalate ","
            (vs.map (fun x => mysql_encode_value col (some x))) ++ "))") ∧
    (∀ (col : Column) (field : String) (vs : List JsonValue) (name op : String),
      col.type_name ≠ "Map" →
      ((name = "$in" ∧ op = "IN") ∨ (name = "$nin" ∧ op = "NOT IN")) → vs ≠ [] →
      pg_format_filter col field (.obj [(name, .arr vs)]) =
        "(" ++ pg_format_field field ++ " " ++ op ++ " (" ++
          String.intercalate ","
            (vs.map (fun x => pg_encode_value col (some x))) ++ "))") ∧
    (∀ (col : Column) (field : String) (pre post : List (String × JsonValue))
        (name : String),
      col.type_name ≠ "Map" → (name = "$in" ∨ name = "$nin") →
      mysql_format_filter col field (.obj (pre ++ (name, .arr []) :: post)) =
        mysql_format_filter col field (.obj (pre ++ post))) ∧
    (∀ (col : Column) (field : String) (pre post : List (String × JsonValue))
        (name : String),
      col.type_name ≠ "Map" → (name = "$in" ∨ name = "$nin") →
      pg_format_filter col field (.obj (pre ++ (name, .arr []) :: post)) =
        pg_format_filter col field (.obj (pre ++ post))) ∧
    (∀ (col : Column) (field : String), col.type_name ≠ "Map" →
      mysql_format_filter col field (.obj []) = "" ∧
      pg_format_filter col field (.obj []) = "") ∧
    (∀ (col : Column) (field : String)
        (entries : List ((String × String) × JsonValue)),
      col.type_name ≠ "Map" → (∀ e ∈ entries, e.1 ∈ cmpOpPairs) → entries ≠ [] →
      mysql_format_filter col field
          (.obj (entries.map (fun e => (e.1.1, e.2)))) =
        "(" ++ String.intercalate " AND "
          (entries.map (fun e =>
            mysql_format_field field ++ " " ++ e.1.2 ++ " " ++
              mysql_encode_value col (some e.2))) ++ ")") ∧
    (∀ (col : Column) (field : String)
        (entries : List ((String × String) × JsonValue)),
      col.type_name ≠ "Map" → (∀ e ∈ entries, e.1 ∈ cmpOpPairs) → entries ≠ [] →
      pg_format_filter col field
          (.obj (entries.map (fun e => (e.1.1, e.2)))) =
        "(" ++ String.intercalate " AND "
          (entries.map (fun e =>
            pg_format_field field ++ " " ++ e.1.2 ++ " " ++
              pg_encode_value col (some e.2))) ++ ")") := by
  refine ⟨?_, ?_, ?_, ?_, ?_, ?_, ?_, ?_, ?_⟩
  · intro col field v name sql hmap hmem
    fin_cases hmem <;>
      simp [mysql_format_filter, hmap, mysql_obj_conds, mysql_op, String.intercalate,
        intercalate_go_nil, String.append_assoc]
  · intro col field v name sql hmap hmem
    fin_cases hmem <;>
      simp [pg_format_filter, hmap, pg_obj_conds, pg_op, String.intercalate,
        intercalate_go_nil, String.append_assoc]
  · intro col field vs name op hmap hop hne
    cases vs with
    | nil => exact absurd rfl hne
    | cons x xs =>
      rcases hop with ⟨h1, h2⟩ | ⟨h1, h2⟩ <;> subst h1 <;> subst h2 <;>
        simp [mysql_format_filter, hmap, mysql_obj_conds, mysql_op, String.intercalate,
          intercalate_go_nil, String.append_assoc]
  · intro col field vs name op hmap hop hne
    cases vs with
    | nil => exact absurd rfl hne
    | cons x xs =>
      rcases hop with ⟨h1, h2⟩ | ⟨h1, h2⟩ <;> subst h1 <;> subst h2 <;>
        simp [pg_format_filter, hmap, pg_obj_conds, pg_op, String.intercalate,
          intercalate_go_nil, String.append_assoc]
  · intro col field pre post name hmap hname
    have hsplit : pre ++ (name, JsonValue.arr []) :: post =
        pre ++ ([(name, JsonValue.arr [])] ++ post) := rfl
    simp only [mysql_format_filter, hmap, if_neg hmap, hsplit,
      mysql_obj_conds_append, mysql_obj_conds_empty_in col field name hname,
      List.nil_append]
    rfl
  · intro col field pre post name hmap hname
    have hsplit : pre ++ (name, JsonValue.arr []) :: post =
        pre ++ ([(name, JsonValue.arr [])] ++ post) := rfl
    simp only [pg_format_filter, hmap, if_neg hmap, hsplit,
      pg_obj_conds_append, pg_obj_conds_empty_in col field name hname,
      List.nil_append]
    rfl
  · intro col field hmap
    constructor <;> simp [mysql_format_filter, pg_format_filter, hmap,
      mysql_obj_conds, pg_obj_conds]
  · intro col field entries hmap hall hne
    cases entries with
    | nil => exact absurd rfl hne
    | cons e rest =>
      have hconds := mysql_obj_conds_cmp_map col field (e :: rest) hall
      simp only [mysql_format_filter, if_neg hmap, hconds]
      simp
  · intro col field entries hmap hall hne
    cases entries with
    | nil => exact absurd rfl hne
    | cons e rest =>
      have hconds := pg_obj_conds_cmp_map col field (e :: rest) hall
      simp only [pg_format_filter, if_neg hmap, hconds]
      simp

/-- Witness for C3 at concrete operators, columns and operands, including a
two-condition filter joined with `AND`. -/
theorem c3_object_filter_operators_witness :
    mysql_format_filter ageCol "age" (.obj [("$gt", .num 5)]) = "(`age` > 5)" ∧
    pg_format_filter ageCol "age" (.obj [("$in", .arr [.num 1, .num 2])]) =
      "(\"age\" IN (1,2))" ∧
    mysql_format_filter ageCol "age"
        (.obj (("$in", .arr []) :: [("$gt", .num 5)])) =
      mysql_format_filter ageCol "age" (.obj [("$gt", .num 5)]) ∧
    pg_format_filter ageCol "age" (.obj []) = "" ∧
    mysql_format_filter ageCol "age"
        (.obj [("$gte", .num 18), ("$lt", .num 65)]) =
      "(`age` >= 18 AND `age` < 65)" ∧
    pg_format_filter ageCol "age"
        (.obj [("$gte", .num 18), ("$lt", .num 65)]) =
      "(\"age\" >= 18 AND \"age\" < 65)" :=
  ⟨c3_object_filter_operators.1 ageCol "age" (.num 5) "$gt" ">" (by decide)
      (by decide),
   c3_object_filter_operators.2.2.2.1 ageCol "age" [.num 1, .num 2] "$in" "IN"
      (by decide) (Or.inl ⟨rfl, rfl⟩) (List.cons_ne_nil _ _),
   c3_object_filter_operators.2.2.2.2.1 ageCol "age" [] [("$gt", .num 5)] "$in"
      (by decide) (Or.inl rfl),
   (c3_object_filter_operators.2.2.2.2.2.2.1 ageCol "age" (by decide)).2,
   c3_object_filter_operators.2.2.2.2.2.2.2.1 ageCol "age"
      [(("$gte", ">="), .num 18), (("$lt", "<"), .num 65)] (by decide)
      (by decide) (List.cons_ne_nil _ _),
   c3_object_filter_operators.2.2.2.2.2.2.2.2 ageCol "age"
      [(("$gte", ">="), .num 18), (("$lt", "<"), .num 65)] (by decide)
      (by decide) (List.cons_ne_nil _ _)⟩

/-- Claim C4 (amended): on a numeric or date/time column, a string value with a
comma compiles to the half-open range `field >= min AND field < max` over the
two parts around the first comma, a value prefixed by one or more of `<`, `>`,
`=` (followed by at least one other character) compiles to that operator applied
to the remainder, and any other scalar compiles to an equality; the field is
rendered through the dialect's identifier quoting, so `age` with value `18,65`
compiles to a backquoted (MySQL) or double-quoted (PostgreSQL) field, not the
bare `age` the claim displays. -/
theorem c4_numeric_filter_shapes :
    (∀ (col : Column) (field v : String), col.type_name ∈ numericTimeTypeNames →
      strContains v ',' = true →
      mysql_format_filter col field (.str v) =
        mysql_format_field field ++ " >= " ++
          mysql_format_value col (beforeComma v) ++ " AND " ++
          mysql_format_field field ++ " < " ++
          mysql_format_value col (afterComma v) ∧
      pg_format_filter col field (.str v) =
        pg_format_field field ++ " >= " ++ pg_format_value col (beforeComma v) ++
          " AND " ++ pg_format_field field ++ " < " ++
          pg_format_value col (afterComma v)) ∧
    (∀ (col : Column) (field v : String), col.type_name ∈ numericTimeTypeNames →
      strContains v ',' = false → 0 < cmpOpIdx v →
      mysql_format_filter col field (.str v) =
        mysql_format_field field ++ " " ++ String.mk (v.toList.take (cmpOpIdx v)) ++
          " " ++ mysql_format_value col (String.mk (v.toList.drop (cmpOpIdx v))) ∧
      pg_format_filter col field (.str v) =
        pg_format_field field ++ " " ++ String.mk (v.toList.take (cmpOpIdx v)) ++
          " " ++ pg_format_value col (String.mk (v.toList.drop (cmpOpIdx v)))) ∧
    (∀ (col : Column) (field v : String), col.type_name ∈ numericTimeTypeNames →
      strContains v ',' = false → cmpOpIdx v = 0 →
      mysql_format_filter col field (.str v) =
        mysql_format_field field ++ " = " ++ mysql_format_value col v ∧
      pg_format_filter col field (.str v) =
        pg_format_field field ++ " = " ++ pg_format_value col v) ∧
    (mysql_format_filter ageCol "age" (.str "18,65") =
        "`age` >= 18 AND `age` < 65" ∧
      pg_format_filter ageCol "age" (.str "18,65") =
        "\"age\" >= 18 AND \"age\" < 65") := by
  have hb : ∀ col : Column, col.type_name ∈ numericTimeTypeNames →
      col.type_name ≠ "bool" := by
    intro col hmem hc
    rw [hc] at hmem
    simp [numericTimeTypeNames] at hmem
  refine ⟨?_, ?_, ?_, by decide, by decide⟩
  · intro col field v hmem hcomma
    constructor <;>
      simp [mysql_format_filter, pg_format_filter, hb col hmem, hmem, hcomma,
        String.append_assoc]
  · intro col field v hmem hcomma hidx
    constructor <;>
      simp [mysql_format_filter, pg_format_filter, hb col hmem, hmem, hcomma,
        hidx, String.append_assoc]
  · intro col field v hmem hcomma hidx
    constructor <;>
      simp [mysql_format_filter, pg_format_filter, hb col hmem, hmem, hcomma,
        hidx, String.append_assoc]

/-- Witness for C4 at the claim's own instance plus a prefix-operator and an
equality value. -/
theorem c4_numeric_filter_shapes_witness :
    mysql_format_filter ageCol "age" (.str "18,65") =
      mysql_format_field "age" ++ " >= " ++ mysql_format_value ageCol "18" ++
        " AND " ++ mysql_format_field "age" ++ " < " ++
        mysql_format_value ageCol "65" ∧
    pg_format_filter ageCol "age" (.str ">=18") =
      pg_format_field "age" ++ " " ++ ">=" ++ " " ++ pg_format_value ageCol "18" ∧
    mysql_format_filter ageCol "age" (.str "18") =
      mysql_format_field "age" ++ " = " ++ mysql_format_value ageCol "18" :=
  ⟨(c4_numeric_filter_shapes.1 ageCol "age" "18,65" (by decide) (by decide)).1,
   (c4_numeric_filter_shapes.2.1 ageCol "age" ">=18" (by decide) (by decide)
      (by decide)).2,
   (c4_numeric_filter_shapes.2.2.1 ageCol "age" "18" (by decide) (by decide)
      (by decide)).1⟩

/-- Counterexample to C4 as stated: the compiled predicate quotes the field
name, so it is not the bare string `age >= 18 AND age < 65`. -/
theorem c4_unquoted_example_counterexample :
    mysql_format_filter ageCol "age" (.str "18,65") ≠
      "age >= 18 AND age < 65" ∧
    pg_format_filter ageCol "age" (.str "18,65") ≠
      "age >= 18 AND age < 65" := by
  decide

/-- Claim C5 (amended): `format_value` is total; on integer and float columns an
input that fails to parse yields SQL `NULL`, string-like columns always escape
their input, and unrecognized types yield `NULL`; but a boolean column never
yields `NULL` (it yields `TRUE` for the input `"true"` and `FALSE` for every
other input, parseable or not), temporal columns escape every non-keyword input
as a string literal instead of degrading to `NULL`, and byte, array and map
columns emit their dialect-specific literal forms for every input. -/
theorem c5_format_value_null_degradation :
    (∀ (col : Column) (s : String), col.type_name ∈ uintTypeNames →
      rust_u64_ok s = false →
      mysql_format_value col s = "NULL" ∧ pg_format_value col s = "NULL") ∧
    (∀ (col : Column) (s : String), col.type_name ∈ intTypeNames →
      rust_i64_ok s = false →
      mysql_format_value col s = "NULL" ∧ pg_format_value col s = "NULL") ∧
    (∀ (col : Column) (s : String), col.type_name ∈ floatTypeNames →
      rust_f64_ok s = false →
      mysql_format_value col s = "NULL" ∧ pg_format_value col s = "NULL") ∧
    (∀ (col : Column) (s : String), col.type_name ∈ stringTypeNames →
      mysql_format_value col s = escape_string s ∧
      pg_format_value col s = escape_string s) ∧
    (∀ (col : Column) (s : String), col.type_name = "bool" →
      mysql_format_value col s = (if s = "true" then "TRUE" else "FALSE") ∧
      pg_format_value col s = (if s = "true" then "TRUE" else "FALSE")) ∧
    (∀ (col : Column) (s : String), col.type_name ∉ knownTypeNames →
      mysql_format_value col s = "NULL" ∧ pg_format_value col s = "NULL") ∧
    (∀ (col : Column) (s : String), col.type_name ∈ temporalTypeNames →
      s ∉ temporalKeywords →
      mysql_format_value col s = escape_string s ∧
      pg_format_value col s = escape_string s) ∧
    (∀ (col : Column) (s : String), col.type_name = "Vec<u8>" →
      mysql_format_value col s = squote ++ "value" ++ squote ∧
      pg_format_value col s = squote ++ "\\x" ++ s ++ squote) ∧
    (∀ (col : Column) (s : String),
      col.type_name = "Vec<String>" ∨ col.type_name = "Vec<Uuid>" →
      mysql_format_value col s =
        (if strContains s ',' then
          "json_array(" ++
            String.intercalate "," ((splitChar s ',').map escape_string) ++ ")"
         else "json_array(" ++ escape_string s ++ ")") ∧
      pg_format_value col s =
        (if strContains s ',' then
          "ARRAY[" ++ String.intercalate "," ((splitChar s ',').map escape_string) ++
            "]::" ++ pg_column_type col
         else "ARRAY[" ++ escape_string s ++ "]::" ++ pg_column_type col)) ∧
    (∀ (col : Column) (s : String), col.type_name = "Map" →
      mysql_format_value col s = squote ++ escape_string s ++ squote ∧
      pg_format_value col s = escape_string s ++ "::jsonb") := by
  refine ⟨?_, ?_, ?_, ?_, ?_, ?_, ?_, ?_, ?_, ?_⟩
  · intro col s hmem hok
    simp [uintTypeNames] at hmem
    rcases hmem with h | h | h | h | h <;>
      constructor <;>
        simp [mysql_format_value, pg_format_value, h, uintTypeNames, hok]
  · intro col s hmem hok
    simp [intTypeNames] at hmem
    rcases hmem with h | h | h | h | h <;>
      constructor <;>
        simp [mysql_format_value, pg_format_value, h, uintTypeNames, intTypeNames,
          hok]
  · intro col s hmem hok
    simp [floatTypeNames] at hmem
    rcases hmem with h | h <;>
      constructor <;>
        simp [mysql_format_value, pg_format_value, h, uintTypeNames, intTypeNames,
          floatTypeNames, hok]
  · intro col s hmem
    simp [stringTypeNames] at hmem
    rcases hmem with h | h | h <;>
      constructor <;>
        simp [mysql_format_value, pg_format_value, h, uintTypeNames, intTypeNames,
          floatTypeNames, stringTypeNames]
  · intro col s h
    constructor <;> simp [mysql_format_value, pg_format_value, h]
  · intro col s hnot
    simp only [knownTypeNames, uintTypeNames, intTypeNames, floatTypeNames,
      stringTypeNames, List.append_assoc, List.cons_append, List.nil_append,
      List.mem_cons, List.not_mem_nil, or_false] at hnot
    push_neg at hnot
    constructor <;>
      simp [mysql_format_value, pg_format_value, uintTypeNames, intTypeNames,
        floatTypeNames, stringTypeNames, hnot]
  · intro col s hmem hkw
    simp only [temporalKeywords, List.mem_cons, List.not_mem_nil, or_false] at hkw
    push_neg at hkw
    simp only [temporalTypeNames, List.mem_cons, List.not_mem_nil, or_false] at hmem
    rcases hmem with h | h | h | h | h | h <;>
      constructor <;>
        simp [mysql_format_value, pg_format_value, h, uintTypeNames, intTypeNames,
          floatTypeNames, stringTypeNames, hkw]
  · intro col s h
    constructor <;>
      simp [mysql_format_value, pg_format_value, h, uintTypeNames, intTypeNames,
        floatTypeNames, stringTypeNames]
  · intro col s hmem
    rcases hmem with h | h <;>
      constructor <;>
        simp [mysql_format_value, pg_format_value, h, uintTypeNames, intTypeNames,
          floatTypeNames, stringTypeNames]
  · intro col s h
    constructor <;>
      simp [mysql_format_value, pg_format_value, h, uintTypeNames, intTypeNames,
        floatTypeNames, stringTypeNames]

/-- Witness for C5 at concrete columns and inputs. -/
theorem c5_format_value_null_degradation_witness :
    mysql_format_value ageCol "abc" = "NULL" ∧
    pg_format_value nameCol "abc" = escape_string "abc" ∧
    mysql_format_value ⟨"x", "Unknown", none, none⟩ "abc" = "NULL" ∧
    mysql_format_value createdCol "not-a-date" = escape_string "not-a-date" ∧
    pg_format_value tagsCol "a" =
      "ARRAY[" ++ escape_string "a" ++ "]::" ++ pg_column_type tagsCol :=
  ⟨(c5_format_value_null_degradation.2.1 ageCol "abc" (by decide) (by decide)).1,
   (c5_format_value_null_degradation.2.2.2.1 nameCol "abc" (by decide)).2,
   (c5_format_value_null_degradation.2.2.2.2.2.1 ⟨"x", "Unknown", none, none⟩
      "abc" (by decide)).1,
   (c5_format_value_null_degradation.2.2.2.2.2.2.1 createdCol "not-a-date"
      (by decide) (by decide)).1,
   (c5_format_value_null_degradation.2.2.2.2.2.2.2.2.1 tagsCol "a"
      (Or.inl rfl)).2⟩

/-- Counterexample to C5 as stated: `"xyz"` does not parse as a boolean, yet a
boolean column formats it as `FALSE`, not as `NULL` and not as an escaped string
literal; and `"not-a-date"` does not parse as a timestamp, yet a `DateTime`
column formats it as an escaped string literal rather than `NULL`. -/
theorem c5_bool_not_null_counterexample :
    mysql_format_value boolCol "xyz" = "FALSE" ∧
    pg_format_value boolCol "xyz" = "FALSE" ∧
    mysql_format_value boolCol "xyz" ≠ "NULL" ∧
    mysql_format_value boolCol "xyz" ≠ escape_string "xyz" ∧
    mysql_format_value createdCol "not-a-date" = escape_string "not-a-date" ∧
    pg_format_value createdCol "not-a-date" = escape_string "not-a-date" ∧
    mysql_format_value createdCol "not-a-date" ≠ "NULL" := by
  decide

/-- Claim C7 (amended): on an array-of-string or array-of-UUID column, a value
containing `;` but no `,` compiles under MySQL to the `AND` of one
`json_overlaps` predicate per `;`-separated group and under PostgreSQL to a
single `@>` containment predicate whose array lists all groups; a value
containing both `;` and `,` compiles in both dialects to the `OR` of one
predicate per `,`-separated part, with each part's `;` replaced by `,`; and a
value without `;` compiles to a single overlaps predicate (`json_overlaps`
under MySQL, `&&` under PostgreSQL). -/
theorem c7_array_filter_separators :
    (∀ (col : Column) (field v : String),
      (col.type_name = "Vec<String>" ∨ col.type_name = "Vec<Uuid>") →
      strContains v ';' = true → strContains v ',' = true →
      mysql_format_filter col field (.str v) =
        String.intercalate " OR " ((splitChar v ',').map (fun p =>
          "json_overlaps(" ++ mysql_format_field field ++ ", " ++
            mysql_format_value col (replaceChar p ';' ",") ++ ")")) ∧
      pg_format_filter col field (.str v) =
        String.intercalate " OR " ((splitChar v ',').map (fun p =>
          pg_format_field field ++ " @> " ++
            pg_format_value col (replaceChar p ';' ",")))) ∧
    (∀ (col : Column) (field v : String),
      (col.type_name = "Vec<String>" ∨ col.type_name = "Vec<Uuid>") →
      strContains v ';' = true → strContains v ',' = false →
      mysql_format_filter col field (.str v) =
        String.intercalate " AND " ((splitChar v ';').map (fun p =>
          "json_overlaps(" ++ mysql_format_field field ++ ", " ++
            mysql_format_value col p ++ ")")) ∧
      pg_format_filter col field (.str v) =
        pg_format_field field ++ " @> " ++
          pg_format_value col (replaceChar v ';' ",")) ∧
    (∀ (col : Column) (field v : String),
      (col.type_name = "Vec<String>" ∨ col.type_name = "Vec<Uuid>") →
      strContains v ';' = false →
      mysql_format_filter col field (.str v) =
        "json_overlaps(" ++ mysql_format_field field ++ ", " ++
          mysql_format_value col v ++ ")" ∧
      pg_format_filter col field (.str v) =
        pg_format_field field ++ " && " ++ pg_format_value col v) := by
  refine ⟨?_, ?_, ?_⟩ <;>
  · intro col field v hd hsemi
    first
    | (intro hcomma
       rcases hd with h | h <;>
         constructor <;>
           simp [mysql_format_filter, pg_format_filter, h, numericTimeTypeNames,
             hsemi, hcomma, String.append_assoc])
    | (rcases hd with h | h <;>
         constructor <;>
           simp [mysql_format_filter, pg_format_filter, h, numericTimeTypeNames,
             hsemi, String.append_assoc])

/-- Witness for C7 at concrete columns and values covering all three shapes. -/
theorem c7_array_filter_separators_witness :
    mysql_format_filter tagsCol "tags" (.str "a;b,c") =
      String.intercalate " OR " ((splitChar "a;b,c" ',').map (fun p =>
        "json_overlaps(" ++ mysql_format_field "tags" ++ ", " ++
          mysql_format_value tagsCol (replaceChar p ';' ",") ++ ")")) ∧
    pg_format_filter tagsCol "tags" (.str "a;b") =
      pg_format_field "tags" ++ " @> " ++
        pg_format_value tagsCol (replaceChar "a;b" ';' ",") ∧
    mysql_format_filter tagsCol "tags" (.str "a") =
      "json_overlaps(" ++ mysql_format_field "tags" ++ ", " ++
        mysql_format_value tagsCol "a" ++ ")" :=
  ⟨(c7_array_filter_separators.1 tagsCol "tags" "a;b,c" (Or.inl rfl) (by decide)
      (by decide)).1,
   (c7_array_filter_separators.2.1 tagsCol "tags" "a;b" (Or.inl rfl) (by decide)
      (by decide)).2,
   (c7_array_filter_separators.2.2 tagsCol "tags" "a" (Or.inl rfl) (by decide)).1⟩

/-- Counterexample to C7 as stated: for the value `a;b,c`, which contains both
separators, the MySQL compilation is an `OR` of per-comma-part predicates and
contains no `AND` at all (the claim requires an `AND` of one predicate per
`;`-group); likewise the PostgreSQL compilation of `a;b` is one containment
predicate with no `AND`. -/
theorem c7_or_join_counterexample :
    mysql_format_filter tagsCol "tags" (.str "a;b,c") =
      "json_overlaps(`tags`, json_array(" ++ squote ++ "a" ++ squote ++ "," ++
        squote ++ "b" ++ squote ++ ")) OR json_overlaps(`tags`, json_array(" ++
        squote ++ "c" ++ squote ++ "))" ∧
    strHasSub (mysql_format_filter tagsCol "tags" (.str "a;b,c")) " AND " = false ∧
    pg_format_filter tagsCol "tags" (.str "a;b") =
      "\"tags\" @> ARRAY[" ++ squote ++ "a" ++ squote ++ "," ++ squote ++ "b" ++
        squote ++ "]::TEXT[]" ∧
    strHasSub (pg_format_filter tagsCol "tags" (.str "a;b")) " AND " = false := by
  decide

end Zino
